import Mathlib

/-!
Shallow embedding of the configuration and client layer of the
kedro-kubeflow plugin (files kedro_kubeflow/config.py and
kedro_kubeflow/kfpclient.py), together with theorems checking the
natural-language specification of the policy-resolution,
configuration-access and experiment-management behaviour.

Python dictionaries are embedded as association lists over a universe
`Val` of Python values; dictionary update (`d[k] = v`) and the
double-splat merge (`{**a, **b}`) are embedded as `dictInsert` /
`dictMerge`.  Exceptions become `Except PyError` (or `Option` where only
success/failure matters).  Python floats are embedded as rationals: the
only float operations the code under study performs are exact coercions
of small integers, where rational arithmetic agrees with IEEE doubles.
-/

set_option autoImplicit false

namespace KedroKubeflow

/-- Universe of Python values stored in the configuration dictionaries:
strings, ints, floats (as exact rationals), booleans, `None`, and nested
dicts (as association lists). -/
inductive Val where
  | vstr (s : String)
  | vint (n : Int)
  | vfloat (q : Rat)
  | vbool (b : Bool)
  | vnone
  | vdict (d : List (String × Val))

/-- A Python dict with string keys, embedded as an association list.
Invariant of real Python dicts: keys are pairwise distinct. -/
abbrev Dict := List (String × Val)

/-- Lookup: `d[k]` / `k in d` (first matching entry; real dicts have
unique keys, so first match is the only match). -/
def dictGet? (d : Dict) (k : String) : Option Val :=
  match d with
  | [] => none
  | (k0, v0) :: rest => if k0 = k then some v0 else dictGet? rest k

/-- Lookup with default: `d.get(k, default)`. -/
def dictGetD (d : Dict) (k : String) (default : Val) : Val :=
  match dictGet? d k with
  | some v => v
  | none => default

/-- Update `d[k] = v`: replaces the value of an existing key in place
(keeping its position, as Python dicts do) or appends a new entry. -/
def dictInsert (d : Dict) (k : String) (v : Val) : Dict :=
  match d with
  | [] => [(k, v)]
  | (k0, v0) :: rest =>
    if k0 = k then (k0, v) :: rest else (k0, v0) :: dictInsert rest k v

/-- The double-splat merge `{**d, **n}`: start from `d`, write every
entry of `n` over it (later entry wins per key). -/
def dictMerge (d n : Dict) : Dict :=
  n.foldl (fun acc kv => dictInsert acc kv.1 kv.2) d

/-- The keys of a dict, in order. -/
def dictKeys (d : Dict) : List String :=
  d.map Prod.fst

/-- Extract the dict payload of a value; a non-dict value in a position
where Python splats or indexes it raises `TypeError`, embedded as
`none`. -/
def Val.asDict : Val → Option Dict
  | .vdict d => some d
  | _ => none

/-- Rendering of a Python float.  Integral values print as in Python
(`str(2.0) = "2.0"`); Python's shortest-roundtrip repr of non-integral
floats is approximated by the rational rendering (never exercised by
the configuration code under study, which only ever formats strings,
ints, booleans and `None`). -/
def floatStr (q : Rat) : String :=
  if q.den = 1 then toString q.num ++ ".0" else toString q

mutual

/-- Python `repr` on the embedded values.  `repr` of a str quotes it,
`repr` of a dict renders its entries with `repr` on keys and values. -/
def pyRepr : Val → String
  | .vstr s => "\x27" ++ s ++ "\x27"
  | .vint n => toString n
  | .vfloat q => floatStr q
  | .vbool b => if b then "True" else "False"
  | .vnone => "None"
  | .vdict d => "\x7b" ++ pyReprEntries d ++ "\x7d"

/-- Comma-separated `repr` rendering of dict entries. -/
def pyReprEntries : List (String × Val) → String
  | [] => ""
  | [(k, v)] => "\x27" ++ k ++ "\x27: " ++ pyRepr v
  | (k, v) :: kv1 :: rest =>
    "\x27" ++ k ++ "\x27: " ++ pyRepr v ++ ", " ++ pyReprEntries (kv1 :: rest)

end

/-- Python `str()` on the embedded values: identity on strings,
`repr` on everything else (they coincide for ints, floats, booleans,
`None` and dicts). -/
def pyStr (v : Val) : String :=
  match v with
  | .vstr s => s
  | _ => pyRepr v

/-- Python `int()` coercion.  `int` of an int is itself, of a bool its
0/1 value, of a float its truncation toward zero, of a decimal-integer
string its value (Python's tolerance for underscores inside numeric
literals is not modelled); `int(None)` and `int(dict)` raise
`TypeError`, embedded as `none`. -/
def pyInt : Val → Option Int
  | .vint n => some n
  | .vbool b => some (if b then 1 else 0)
  | .vfloat q => some (Int.tdiv q.num (Int.ofNat q.den))
  | .vstr s => s.trim.toInt?
  | .vnone => none
  | .vdict _ => none

/-- Parse a plain decimal literal (optional sign, digits, optional
fractional part) the way Python `float(str)` does; exponents, `inf` and
`nan` spellings are not modelled (never exercised here). -/
def pyParseFloat (s : String) : Option Rat :=
  let t := s.trim
  let (sign, u) : Rat × String :=
    if t.startsWith "-" then (-1, t.drop 1)
    else if t.startsWith "+" then (1, t.drop 1)
    else (1, t)
  match u.splitOn "." with
  | [a] => (a.toNat?).map (fun x => sign * (x : Rat))
  | [a, b] =>
    if a.isEmpty ∧ b.isEmpty then none
    else
      match (if a.isEmpty then some 0 else a.toNat?),
            (if b.isEmpty then some 0 else b.toNat?) with
      | some x, some y =>
        some (sign * ((x : Rat) + (y : Rat) / ((10 : Rat) ^ b.length)))
      | _, _ => none
  | _ => none

/-- Python `float()` coercion: exact on ints and bools, identity on
floats, decimal parse on strings; `float(None)` and `float(dict)` raise
`TypeError`, embedded as `none`. -/
def pyFloat : Val → Option Rat
  | .vint n => some (n : Rat)
  | .vfloat q => some q
  | .vbool b => some (if b then 1 else 0)
  | .vstr s => pyParseFloat s
  | .vnone => none
  | .vdict _ => none

/-! ## Errors

The Python exception classes raised by the code under study:
`MissingConfigException` (from `Config._get_or_fail`), `ValueError`
(from `RunConfig.node_merge_strategy` and from the Kubeflow client's
`get_experiment`), and a bare `Exception` (from the defensive branch of
`KubeflowClient.__init__`).  `except ValueError` clauses catch only the
`valueError` constructor. -/
inductive PyError where
  | missingConfig (msg : String)
  | valueError (msg : String)
  | exception (msg : String)

/-- The message of `Config._get_or_fail`:
`f"Missing required configuration: '{self._get_prefix()}{prop}'."`. -/
def missingMsg (key : String) : String :=
  "Missing required configuration: \x27" ++ key ++ "\x27."

/-- `Config._get_or_fail(prop)`: return `self._raw[prop]` when the key
is present, otherwise raise `MissingConfigException` carrying the
fully-qualified (prefix-dotted) key name.  The subclass prefix
(`Config._get_prefix`) is passed explicitly as `pfx`. -/
def getOrFail (raw : Dict) (pfx : String) (prop : String) : Except PyError Val :=
  match dictGet? raw prop with
  | some v => .ok v
  | none => .error (.missingConfig (missingMsg (pfx ++ prop)))

/-! ## Policy resolver (`NodeResources`, `RetryPolicy`)

`NodeResources.get_for` computes `{**defaults, **node_specific}` where
`defaults = self._get_or_default("__default__", {})` and
`node_specific = self._get_or_default(node_name, {})`.  Splatting a
non-dict value raises `TypeError`, embedded as `none`. -/

/-- The default-then-override merge both policy classes perform:
`{**defaults, **node_specific}` with
`defaults = raw.get("__default__", {})` and
`node_specific = raw.get(node_name, {})`. -/
def mergedPolicy (raw : Dict) (node_name : String) : Option Dict :=
  match Val.asDict (dictGetD raw "__default__" (Val.vdict [])),
        Val.asDict (dictGetD raw node_name (Val.vdict [])) with
  | some defaults, some node_specific => some (dictMerge defaults node_specific)
  | _, _ => none

/-- The raw dict behind a `NodeResources` configuration block. -/
structure NodeResources where
  raw : Dict

/-- `NodeResources.get_for(node_name)`: the default-then-override
shallow merge of the `__default__` entry with the node-specific entry. -/
def NodeResources.get_for (c : NodeResources) (node_name : String) : Option Dict :=
  mergedPolicy c.raw node_name

/-- `NodeResources.is_set_for(node_name)`: `self.get_for(node_name) != {}`. -/
def NodeResources.is_set_for (c : NodeResources) (node_name : String) : Option Bool :=
  (c.get_for node_name).map (fun d => !d.isEmpty)

/-- The raw dict behind a `RetryPolicy` configuration block. -/
structure RetryPolicy where
  raw : Dict

/-- The last normalization step of `RetryPolicy.get_for`:
`values["backoff_duration"] = str(values["backoff_duration"]) if
"backoff_duration" in values else None` (`str()` is total, so this
step never raises). -/
def normDur (values : Dict) : Dict :=
  match dictGet? values "backoff_duration" with
  | some v => dictInsert values "backoff_duration" (Val.vstr (pyStr v))
  | none => dictInsert values "backoff_duration" Val.vnone

/-- The normalization `RetryPolicy.get_for` applies to the merged
values: return `{}` unchanged when the merge is empty; otherwise
`values["num_retries"] = int(values.get("num_retries", 0))`, then
`values["backoff_factor"] = float(values["backoff_factor"]) if
"backoff_factor" in values else None`, then the `backoff_duration`
step (`normDur`).  A failing `int()`/`float()` coercion raises,
embedded as `none`. -/
def normalizeRetry (values : Dict) : Option Dict :=
  if values.isEmpty then some [] else
    match pyInt (dictGetD values "num_retries" (Val.vint 0)) with
    | none => none
    | some nr =>
      let values1 := dictInsert values "num_retries" (Val.vint nr)
      match dictGet? values1 "backoff_factor" with
      | some v =>
        match pyFloat v with
        | none => none
        | some f => some (normDur (dictInsert values1 "backoff_factor" (Val.vfloat f)))
      | none => some (normDur (dictInsert values1 "backoff_factor" Val.vnone))

/-- `RetryPolicy.get_for(node_name)`: the same default-then-override
merge, followed by the retry normalization. -/
def RetryPolicy.get_for (c : RetryPolicy) (node_name : String) : Option Dict :=
  (mergedPolicy c.raw node_name).bind normalizeRetry

/-- `RetryPolicy.is_set_for(node_name)`: `self.get_for(node_name) != {}`. -/
def RetryPolicy.is_set_for (c : RetryPolicy) (node_name : String) : Option Bool :=
  (c.get_for node_name).map (fun d => !d.isEmpty)

/-! ## `RunConfig` and `PluginConfig` accessors -/

/-- The raw dict behind the `run_config` section. -/
structure RunConfig where
  raw : Dict

/-- `RunConfig.image`: `self._get_or_fail("image")` with prefix
`run_config.`. -/
def RunConfig.image (c : RunConfig) : Except PyError Val :=
  getOrFail c.raw "run_config." "image"

/-- `RunConfig.experiment_name`: `self._get_or_fail("experiment_name")`. -/
def RunConfig.experiment_name (c : RunConfig) : Except PyError Val :=
  getOrFail c.raw "run_config." "experiment_name"

/-- `RunConfig.run_name`: `self._get_or_fail("run_name")`. -/
def RunConfig.run_name (c : RunConfig) : Except PyError Val :=
  getOrFail c.raw "run_config." "run_name"

/-- `RunConfig.scheduled_run_name`:
`self._get_or_default("scheduled_run_name", self._get_or_fail("run_name"))`.
Python evaluates the second argument eagerly, so `run_name` is fetched
(and its absence raises) before the `scheduled_run_name` lookup
happens, even when `scheduled_run_name` is present. -/
def RunConfig.scheduled_run_name (c : RunConfig) : Except PyError Val :=
  match getOrFail c.raw "run_config." "run_name" with
  | .error e => .error e
  | .ok fallback => .ok (dictGetD c.raw "scheduled_run_name" fallback)

/-- `RunConfig.max_cache_staleness`:
`str(self._get_or_default("max_cache_staleness", None))`. -/
def RunConfig.max_cache_staleness (c : RunConfig) : String :=
  pyStr (dictGetD c.raw "max_cache_staleness" Val.vnone)

/-- The validation step of `RunConfig.node_merge_strategy` on the
already-stringified value `strategy`: raise
`ValueError(f"Invalid run_config.node_merge_strategy: {strategy}")`
when the string is not in `["none", "full"]`, else return it. -/
def validateMergeStrategy (strategy : String) : Except PyError String :=
  if strategy = "none" ∨ strategy = "full" then .ok strategy
  else .error (.valueError ("Invalid run_config.node_merge_strategy: " ++ strategy))

/-- `RunConfig.node_merge_strategy`:
`strategy = str(self._get_or_default("node_merge_strategy", "none"))`,
then the membership validation. -/
def RunConfig.node_merge_strategy (c : RunConfig) : Except PyError String :=
  validateMergeStrategy (pyStr (dictGetD c.raw "node_merge_strategy" (Val.vstr "none")))

/-- `RunConfig.resources`:
`NodeResources(self._get_or_default("resources", {}))` (a non-dict
stored value would fail on later dict operations, embedded as `none`). -/
def RunConfig.resources (c : RunConfig) : Option NodeResources :=
  (Val.asDict (dictGetD c.raw "resources" (Val.vdict []))).map NodeResources.mk

/-- `RunConfig.retry_policy`:
`RetryPolicy(self._get_or_default("retry_policy", {}))`. -/
def RunConfig.retry_policy (c : RunConfig) : Option RetryPolicy :=
  (Val.asDict (dictGetD c.raw "retry_policy" (Val.vdict []))).map RetryPolicy.mk

/-- The raw dict behind the top-level plugin configuration. -/
structure PluginConfig where
  raw : Dict

/-- `PluginConfig.host`: `self._get_or_fail("host")` with the empty
prefix of the top-level `Config`. -/
def PluginConfig.host (c : PluginConfig) : Except PyError Val :=
  getOrFail c.raw "" "host"

/-- `PluginConfig.run_config`: `cfg = self._get_or_fail("run_config");
return RunConfig(cfg)` — the wrapper stores `cfg` unchanged, so the
accessor is embedded as returning the fetched value itself. -/
def PluginConfig.run_config (c : PluginConfig) : Except PyError Val :=
  getOrFail c.raw "" "run_config"

/-! ## Kubeflow client (`kfpclient.py`) -/

/-- The two pipeline generators `KubeflowClient.__init__` can select:
`PodPerNodePipelineGenerator` and `OnePodPipelineGenerator`. -/
inductive Generator where
  | podPerNode
  | onePod

/-- Generator selection in `KubeflowClient.__init__`: strategy `"none"`
selects the per-node generator, `"full"` the one-pod generator, and the
defensive `else` branch raises
`Exception(f"Invalid \x60node_merge_strategy\x60: ...")`.  The source
reads `config.run_config.node_merge_strategy` once per comparison; the
property is pure, so a single read is equivalent. -/
def selectGenerator (c : RunConfig) : Except PyError Generator :=
  match c.node_merge_strategy with
  | .error e => .error e
  | .ok s =>
    if s = "none" then .ok .podPerNode
    else if s = "full" then .ok .onePod
    else .error (.exception ("Invalid \x60node_merge_strategy\x60: " ++ s))

/-- Python `str.startswith(p)`, embedded as a prefix test on the
character sequences. -/
def pyStartsWith (s p : String) : Bool :=
  p.data.isPrefixOf s.data

/-- A Kubeflow experiment, identified by its id. -/
structure Experiment where
  id : String

/-- `KubeflowClient._ensure_experiment_exists`: look the experiment up;
on success return the existing experiment's id; when the lookup raises
a `ValueError` whose message starts with `"No experiment is found"`,
create the experiment and return the new id; re-raise any other failure
unchanged (`except ValueError` does not even catch non-`ValueError`
exceptions).  The external client is embedded as the `lookup` outcome
and the experiment `created` would return; the boolean in the result
records whether `create_experiment` was invoked. -/
def ensure_experiment_exists (lookup : Except PyError Experiment)
    (created : Experiment) : Except PyError (String × Bool) :=
  match lookup with
  | .ok e => .ok (e.id, false)
  | .error (.valueError msg) =>
    if pyStartsWith msg "No experiment is found" then .ok (created.id, true)
    else .error (.valueError msg)
  | .error e => .error e

/-! ## Node compiler retry attachment (spec-modelled) -/

/-- The float payload of a normalized optional field: a `vfloat` value
reads as that float, the `vnone` placeholder (or absence) reads as
unset. -/
def floatField (o : Option Val) : Option Rat :=
  match o with
  | some (.vfloat q) => some q
  | _ => none

/-- The string payload of a normalized optional field: a `vstr` value
reads as that string, the `vnone` placeholder (or absence) reads as
unset. -/
def strField (o : Option Val) : Option String :=
  match o with
  | some (.vstr s) => some s
  | _ => none

/-- Coercion of an optional field during normalization: an absent field
stays absent and never raises; a present field is coerced by `f`, and
only a failing coercion raises. -/
def coerceOpt {α : Type} (f : Val → Option α) : Option Val → Option (Option α)
  | none => some none
  | some v => (f v).map some

/-- The value the normalization stores for an optional float field:
the coerced float when the field was present in the merge, the Python
`None` unset marker otherwise. -/
def floatFieldVal (o : Option Rat) : Val :=
  match o with
  | some q => .vfloat q
  | none => .vnone

/-- The value the normalization stores for `backoff_duration`: the
string coercion of the merged value when present, the Python `None`
unset marker otherwise. -/
def durFieldVal (o : Option Val) : Val :=
  match o with
  | some v => .vstr (pyStr v)
  | none => .vnone

/-- The retry-related fields of a produced executable unit (the kfp
`ContainerOp` attributes `num_retries`, `retry_policy`,
`backoff_factor`, `backoff_duration` asserted by the tests). -/
structure RetrySpec where
  num_retries : Int
  retry_trigger : Option String
  backoff_factor : Option Rat
  backoff_duration : Option String

/-- A fresh unit before any retry attachment: the tests assert
`num_retries == 0` and `None` for the other three fields. -/
def defaultRetrySpec : RetrySpec :=
  { num_retries := 0, retry_trigger := none, backoff_factor := none,
    backoff_duration := none }

/-- Modelled from the spec: the Node Compiler's retry attachment
(spec section 4.2) — the generator sources
(`kedro_kubeflow/generators/*.py`) are not among the given sources,
only their tests are.  When the resolved retry policy is set for the
node, the unit carries the normalized `num_retries`,
`backoff_duration` and `backoff_factor` values of
`RetryPolicy.get_for` together with a fixed, per-node-independent
retry-trigger constant; the trigger constant is pinned by the in-repo
test `test_should_add_retry_policy`, which asserts
`op.retry_policy == "Always"` (`test_should_not_add_retry_policy_if_not_requested`
pins the unset defaults). -/
def attachRetrySpec (rp : RetryPolicy) (node_name : String) : Option RetrySpec :=
  match rp.is_set_for node_name with
  | none => none
  | some false => some defaultRetrySpec
  | some true =>
    match rp.get_for node_name with
    | none => none
    | some v =>
      match dictGet? v "num_retries" with
      | some (.vint nr) =>
        some { num_retries := nr
             , retry_trigger := some "Always"
             , backoff_factor := floatField (dictGet? v "backoff_factor")
             , backoff_duration := strField (dictGet? v "backoff_duration") }
      | _ => none

/-! ## Concrete configuration blocks used by the spec's examples -/

/-- The resource block of the spec's merge example:
`{"__default__": {"cpu": "100m", "memory": "8Gi"},
  "node1": {"cpu": "400m", "memory": "64Gi"}}`. -/
def resBlockExample : Dict :=
  [("__default__", .vdict [("cpu", .vstr "100m"), ("memory", .vstr "8Gi")]),
   ("node1", .vdict [("cpu", .vstr "400m"), ("memory", .vstr "64Gi")])]

/-- The retry block of the spec's retry example:
`{"num_retries": 4, "backoff_duration": "60s", "backoff_factor": 2}`
installed as the `__default__` policy. -/
def retryBlockExample : Dict :=
  [("__default__", .vdict
     [("num_retries", .vint 4), ("backoff_duration", .vstr "60s"),
      ("backoff_factor", .vint 2)])]

/-! ## Association-list lemmas about lookup, update and splat-merge -/

theorem dictGet?_insert_self (d : Dict) (k : String) (v : Val) :
    dictGet? (dictInsert d k v) k = some v := by
  induction d with
  | nil => simp [dictInsert, dictGet?]
  | cons kv rest ih =>
    obtain ⟨k0, v0⟩ := kv
    by_cases h : k0 = k
    · simp [dictInsert, dictGet?, h]
    · simp [dictInsert, dictGet?, h, ih]

theorem dictGet?_insert_ne (d : Dict) (k0 k : String) (v : Val) (h : k0 ≠ k) :
    dictGet? (dictInsert d k0 v) k = dictGet? d k := by
  induction d with
  | nil => simp [dictInsert, dictGet?, h]
  | cons kv rest ih =>
    obtain ⟨k1, v1⟩ := kv
    by_cases h0 : k1 = k0
    · subst h0
      simp [dictInsert, dictGet?, h]
    · simp [dictInsert, dictGet?, h0, ih]

theorem dictInsert_of_get? (d : Dict) (k : String) (v : Val)
    (h : dictGet? d k = some v) : dictInsert d k v = d := by
  induction d with
  | nil => simp [dictGet?] at h
  | cons kv rest ih =>
    obtain ⟨k0, v0⟩ := kv
    by_cases h0 : k0 = k
    · have hv : v0 = v := by simpa [dictGet?, h0] using h
      simp [dictInsert, h0, hv]
    · have h2 : dictGet? rest k = some v := by simpa [dictGet?, h0] using h
      simp [dictInsert, h0, ih h2]

theorem dictInsert_ne_nil (d : Dict) (k : String) (v : Val) :
    dictInsert d k v ≠ [] := by
  cases d with
  | nil => simp [dictInsert]
  | cons kv rest =>
    obtain ⟨k0, v0⟩ := kv
    by_cases h : k0 = k <;> simp [dictInsert, h]

theorem dictMerge_nil (d : Dict) : dictMerge d [] = d := rfl

theorem dictMerge_cons (d : Dict) (k : String) (v : Val) (n : Dict) :
    dictMerge d ((k, v) :: n) = dictMerge (dictInsert d k v) n := rfl

theorem dictGet?_eq_none_of_not_mem (d : Dict) (k : String)
    (h : k ∉ dictKeys d) : dictGet? d k = none := by
  induction d with
  | nil => rfl
  | cons kv rest ih =>
    obtain ⟨k0, v0⟩ := kv
    rw [dictKeys, List.map_cons, List.mem_cons, not_or] at h
    have h1 : k0 ≠ k := fun he => h.1 he.symm
    simp [dictGet?, h1, ih h.2]

theorem dictGet?_of_mem (d : Dict) (hnd : (dictKeys d).Nodup)
    (k : String) (v : Val) (hm : (k, v) ∈ d) : dictGet? d k = some v := by
  induction d with
  | nil => cases hm
  | cons kv rest ih =>
    obtain ⟨k0, v0⟩ := kv
    rw [dictKeys, List.map_cons] at hnd
    obtain ⟨hni, hnd2⟩ := List.nodup_cons.mp hnd
    rcases List.mem_cons.mp hm with he | ht
    · obtain ⟨he1, he2⟩ := Prod.mk.injEq k v k0 v0 ▸ he
      subst he1
      subst he2
      simp [dictGet?]
    · have hne : k0 ≠ k := by
        intro he1
        subst he1
        exact hni (List.mem_map.mpr ⟨(k0, v), ht, rfl⟩)
      simp [dictGet?, hne, ih hnd2 ht]

theorem dictMerge_fixed (acc l : Dict)
    (h : ∀ kv ∈ l, dictGet? acc kv.1 = some kv.2) :
    dictMerge acc l = acc := by
  induction l generalizing acc with
  | nil => rfl
  | cons kv rest ih =>
    have h1 : dictInsert acc kv.1 kv.2 = acc :=
      dictInsert_of_get? acc kv.1 kv.2 (h kv (List.mem_cons_self kv rest))
    calc dictMerge acc (kv :: rest)
        = dictMerge (dictInsert acc kv.1 kv.2) rest := rfl
      _ = dictMerge acc rest := by rw [h1]
      _ = acc := ih acc (fun kv2 hm => h kv2 (List.mem_cons_of_mem kv hm))

theorem dictMerge_self (m : Dict) (hnd : (dictKeys m).Nodup) :
    dictMerge m m = m :=
  dictMerge_fixed m m (fun kv hm => dictGet?_of_mem m hnd kv.1 kv.2 hm)

theorem dictGet?_merge (d n : Dict) (hnd : (dictKeys n).Nodup) (k : String) :
    dictGet? (dictMerge d n) k = Option.or (dictGet? n k) (dictGet? d k) := by
  induction n generalizing d with
  | nil => simp [dictMerge_nil, dictGet?]
  | cons kv rest ih =>
    obtain ⟨k1, v1⟩ := kv
    rw [dictKeys, List.map_cons] at hnd
    obtain ⟨hni, hnd2⟩ := List.nodup_cons.mp hnd
    rw [dictMerge_cons]
    by_cases hk : k1 = k
    · subst hk
      have hr : dictGet? rest k1 = none :=
        dictGet?_eq_none_of_not_mem rest k1 hni
      rw [ih (dictInsert d k1 v1) hnd2, hr]
      simp [dictGet?, dictGet?_insert_self]
    · rw [ih (dictInsert d k1 v1) hnd2, dictGet?_insert_ne d k1 k v1 hk]
      simp [dictGet?, hk]

theorem dictMerge_ne_nil_left (d n : Dict) (h : d ≠ []) :
    dictMerge d n ≠ [] := by
  induction n generalizing d with
  | nil => simpa [dictMerge_nil]
  | cons kv rest ih =>
    obtain ⟨k1, v1⟩ := kv
    rw [dictMerge_cons]
    exact ih (dictInsert d k1 v1) (dictInsert_ne_nil d k1 v1)

theorem dictMerge_ne_nil_right (d n : Dict) (h : n ≠ []) :
    dictMerge d n ≠ [] := by
  cases n with
  | nil => exact absurd rfl h
  | cons kv rest =>
    obtain ⟨k1, v1⟩ := kv
    rw [dictMerge_cons]
    exact dictMerge_ne_nil_left _ rest (dictInsert_ne_nil d k1 v1)

theorem dictGetD_of_none (d : Dict) (k : String) (default : Val)
    (h : dictGet? d k = none) : dictGetD d k default = default := by
  simp [dictGetD, h]

theorem dictGetD_of_some (d : Dict) (k : String) (default v : Val)
    (h : dictGet? d k = some v) : dictGetD d k default = v := by
  simp [dictGetD, h]

/-! ## Lemmas about the retry normalization -/

theorem dictGet?_normDur_ne (v : Dict) (k : String)
    (hk : k ≠ "backoff_duration") :
    dictGet? (normDur v) k = dictGet? v k := by
  unfold normDur
  split
  · exact dictGet?_insert_ne _ _ _ _ (Ne.symm hk)
  · exact dictGet?_insert_ne _ _ _ _ (Ne.symm hk)

theorem dictGet?_normDur_self (v : Dict) :
    dictGet? (normDur v) "backoff_duration"
      = some (durFieldVal (dictGet? v "backoff_duration")) := by
  unfold normDur
  split
  · next w hw => rw [dictGet?_insert_self, hw, durFieldVal]
  · next hw => rw [dictGet?_insert_self, hw, durFieldVal]

theorem normDur_ne_nil (v : Dict) : normDur v ≠ [] := by
  unfold normDur
  split
  · exact dictInsert_ne_nil _ _ _
  · exact dictInsert_ne_nil _ _ _

theorem normalizeRetry_nil : normalizeRetry [] = some [] := rfl

theorem normalizeRetry_ne_nil (values : Dict) (hne : values ≠ [])
    (r : Dict) (h : normalizeRetry values = some r) : r ≠ [] := by
  have hie : values.isEmpty = false := by
    cases values with
    | nil => exact absurd rfl hne
    | cons kv rest => rfl
  unfold normalizeRetry at h
  rw [hie] at h
  simp only [Bool.false_eq_true, if_false] at h
  split at h
  · exact absurd h (by simp)
  · split at h
    · split at h
      · exact absurd h (by simp)
      · injection h with h2
        rw [← h2]
        exact normDur_ne_nil _
    · injection h with h2
      rw [← h2]
      exact normDur_ne_nil _

theorem normalizeRetry_spec (d : Dict) (hne : d ≠ [])
    (i : Int) (bf : Option Rat)
    (hi : pyInt (dictGetD d "num_retries" (Val.vint 0)) = some i)
    (hbf : coerceOpt pyFloat (dictGet? d "backoff_factor") = some bf) :
    ∃ r : Dict, normalizeRetry d = some r ∧
      dictGet? r "num_retries" = some (Val.vint i) ∧
      dictGet? r "backoff_factor" = some (floatFieldVal bf) ∧
      dictGet? r "backoff_duration"
        = some (durFieldVal (dictGet? d "backoff_duration")) := by
  have hie : d.isEmpty = false := by
    cases d with
    | nil => exact absurd rfl hne
    | cons kv rest => rfl
  have hbf1 : dictGet? (dictInsert d "num_retries" (Val.vint i)) "backoff_factor"
      = dictGet? d "backoff_factor" :=
    dictGet?_insert_ne d "num_retries" "backoff_factor" (Val.vint i) (by decide)
  have hbd1 : dictGet? (dictInsert d "num_retries" (Val.vint i)) "backoff_duration"
      = dictGet? d "backoff_duration" :=
    dictGet?_insert_ne d "num_retries" "backoff_duration" (Val.vint i) (by decide)
  have hnr1 : dictGet? (dictInsert d "num_retries" (Val.vint i)) "num_retries"
      = some (Val.vint i) := dictGet?_insert_self d "num_retries" (Val.vint i)
  cases hbf0 : dictGet? d "backoff_factor" with
  | none =>
    have hbfn : bf = none := by
      rw [hbf0] at hbf
      simpa [coerceOpt] using hbf.symm
    subst hbfn
    refine ⟨normDur (dictInsert (dictInsert d "num_retries" (Val.vint i))
        "backoff_factor" Val.vnone), ?_, ?_, ?_, ?_⟩
    · unfold normalizeRetry
      rw [hie]
      simp only [Bool.false_eq_true, if_false, hi, hbf1, hbf0]
    · rw [dictGet?_normDur_ne _ _ (by decide),
        dictGet?_insert_ne _ _ _ _ (by decide), hnr1]
    · rw [dictGet?_normDur_ne _ _ (by decide), dictGet?_insert_self]
      rfl
    · rw [dictGet?_normDur_self, dictGet?_insert_ne _ _ _ _ (by decide), hbd1]
  | some w =>
    rw [hbf0] at hbf
    cases hw : pyFloat w with
    | none => rw [coerceOpt, hw] at hbf; exact absurd hbf (by simp)
    | some f =>
      have hbff : bf = some f := by
        rw [coerceOpt, hw] at hbf
        simpa using hbf.symm
      subst hbff
      refine ⟨normDur (dictInsert (dictInsert d "num_retries" (Val.vint i))
          "backoff_factor" (Val.vfloat f)), ?_, ?_, ?_, ?_⟩
      · unfold normalizeRetry
        rw [hie]
        simp only [Bool.false_eq_true, if_false, hi, hbf1, hbf0, hw]
      · rw [dictGet?_normDur_ne _ _ (by decide),
          dictGet?_insert_ne _ _ _ _ (by decide), hnr1]
      · rw [dictGet?_normDur_ne _ _ (by decide), dictGet?_insert_self]
        rfl
      · rw [dictGet?_normDur_self, dictGet?_insert_ne _ _ _ _ (by decide), hbd1]

/-! ## Claims -/

/-- C1: for every resource/retry configuration block, the resolved
policy is the shallow default-then-override merge of the `__default__`
entry with the node-specific entry, node-specific value winning per
key; on the spec's example block, `get_for("node1")` yields
`{"cpu": "400m", "memory": "64Gi"}` and `get_for` of any node not
listed in the block yields `{"cpu": "100m", "memory": "8Gi"}`; and the
merge is idempotent: resolving an already-resolved mapping (a dict, so
with pairwise-distinct keys) used as both default and override yields
itself. -/
theorem C1_default_override_merge :
    (NodeResources.get_for ⟨resBlockExample⟩ "node1"
       = some [("cpu", Val.vstr "400m"), ("memory", Val.vstr "64Gi")]) ∧
    (∀ n : String, dictGet? resBlockExample n = none →
       NodeResources.get_for ⟨resBlockExample⟩ n
         = some [("cpu", Val.vstr "100m"), ("memory", Val.vstr "8Gi")]) ∧
    (∀ (raw : Dict) (n : String) (d nd : Dict),
       Val.asDict (dictGetD raw "__default__" (Val.vdict [])) = some d →
       Val.asDict (dictGetD raw n (Val.vdict [])) = some nd →
       NodeResources.get_for ⟨raw⟩ n = some (dictMerge d nd) ∧
       ((dictKeys nd).Nodup → ∀ k : String,
          dictGet? (dictMerge d nd) k
            = Option.or (dictGet? nd k) (dictGet? d k))) ∧
    (∀ m : Dict, (dictKeys m).Nodup → dictMerge m m = m) := by
  refine ⟨rfl, ?_, ?_, dictMerge_self⟩
  · intro n h
    have h2 := dictGetD_of_none resBlockExample n (Val.vdict []) h
    simp only [NodeResources.get_for, mergedPolicy, h2]
    rfl
  · intro raw n d nd h1 h2
    constructor
    · simp only [NodeResources.get_for, mergedPolicy, h1, h2]
    · intro hnd k
      exact dictGet?_merge d nd hnd k

/-- Closed-instance witness for C1: the unlisted-node lookup and the
idempotence conclusion evaluated on the example block's own entries. -/
theorem C1_default_override_merge_witness :
    (NodeResources.get_for ⟨resBlockExample⟩ "unlisted_node"
       = some [("cpu", Val.vstr "100m"), ("memory", Val.vstr "8Gi")]) ∧
    (dictMerge [("cpu", Val.vstr "400m"), ("memory", Val.vstr "64Gi")]
               [("cpu", Val.vstr "400m"), ("memory", Val.vstr "64Gi")]
       = [("cpu", Val.vstr "400m"), ("memory", Val.vstr "64Gi")]) ∧
    (NodeResources.get_for ⟨resBlockExample⟩ "node1"
       = some (dictMerge [("cpu", Val.vstr "100m"), ("memory", Val.vstr "8Gi")]
                         [("cpu", Val.vstr "400m"), ("memory", Val.vstr "64Gi")])) :=
  ⟨C1_default_override_merge.2.1 "unlisted_node" rfl,
   C1_default_override_merge.2.2.2 _ (by decide),
   (C1_default_override_merge.2.2.1 resBlockExample "node1" _ _ rfl rfl).1⟩

/-- C2: on both policy classes, `is_set_for(nodeName)` returns true iff
the default-then-override merged result for that node is a non-empty
mapping; in particular, when neither a `__default__` entry nor a
node-specific entry exists, `is_set_for` returns false, so no spec is
attached (absence, never a zero-valued default). -/
theorem C2_is_set_for_nonempty :
    ∀ (raw : Dict) (n : String),
      (∀ d : Dict, mergedPolicy raw n = some d →
         ((NodeResources.is_set_for ⟨raw⟩ n = some true) ↔ d ≠ []) ∧
         (∀ b : Bool, RetryPolicy.is_set_for ⟨raw⟩ n = some b →
            (b = true ↔ d ≠ []))) ∧
      (dictGet? raw "__default__" = none → dictGet? raw n = none →
         NodeResources.is_set_for ⟨raw⟩ n = some false ∧
         RetryPolicy.is_set_for ⟨raw⟩ n = some false) := by
  intro raw n
  constructor
  · intro d hd
    constructor
    · simp [NodeResources.is_set_for, NodeResources.get_for, hd]
    · intro b hb
      simp only [RetryPolicy.is_set_for, RetryPolicy.get_for, hd,
        Option.some_bind] at hb
      cases hr : normalizeRetry d with
      | none => rw [hr] at hb; exact absurd hb (by simp)
      | some r =>
        rw [hr] at hb
        simp only [Option.map_some', Option.some.injEq] at hb
        by_cases hdn : d = []
        · subst hdn
          have hrn : r = [] := by
            have h0 := normalizeRetry_nil.symm.trans hr
            injection h0 with h1
            exact h1.symm
          subst hrn
          simp only [List.isEmpty_nil, Bool.not_true] at hb
          subst hb
          simp
        · have hrne := normalizeRetry_ne_nil d hdn r hr
          have hrie : r.isEmpty = false := by
            cases r with
            | nil => exact absurd rfl hrne
            | cons kv rest => rfl
          rw [hrie] at hb
          simp only [Bool.not_false] at hb
          subst hb
          exact ⟨fun _ => hdn, fun _ => rfl⟩
  · intro h1 h2
    have hm : mergedPolicy raw n = some [] := by
      simp only [mergedPolicy, dictGetD_of_none _ _ _ h1, dictGetD_of_none _ _ _ h2]
      rfl
    constructor
    · simp [NodeResources.is_set_for, NodeResources.get_for, hm]
    · simp [RetryPolicy.is_set_for, RetryPolicy.get_for, hm, normalizeRetry_nil]

/-- Closed-instance witness for C2: a block that sets a policy for
`node1` reads as set; the empty block reads as unset for both policy
classes. -/
theorem C2_is_set_for_nonempty_witness :
    (NodeResources.is_set_for ⟨resBlockExample⟩ "node1" = some true) ∧
    (true = true ↔
       ([("num_retries", Val.vint 4), ("backoff_duration", Val.vstr "60s"),
         ("backoff_factor", Val.vint 2)] : Dict) ≠ []) ∧
    (NodeResources.is_set_for ⟨[]⟩ "node1" = some false ∧
     RetryPolicy.is_set_for ⟨[]⟩ "node1" = some false) :=
  ⟨((C2_is_set_for_nonempty resBlockExample "node1").1 _ rfl).1.mpr
     (List.cons_ne_nil _ _),
   ((C2_is_set_for_nonempty retryBlockExample "node1").1 _ rfl).2 true rfl,
   (C2_is_set_for_nonempty [] "node1").2 rfl rfl⟩

/-- C3: for every node name, `RetryPolicy.get_for` normalizes the
merged retry block: an empty merge returns the empty mapping; otherwise
`num_retries` is coerced to integer (defaulting to 0 when the key is
absent, since `pyInt` of the default `0` is `0`), `backoff_factor` is
coerced to float when present and left unset (stored as the Python
`None` marker) otherwise, `backoff_duration` is coerced to string when
present and left unset otherwise; a missing optional field never makes
the normalization raise — only a present, uncoercible value does. -/
theorem C3_retry_normalization :
    ∀ (raw : Dict) (n : String) (d : Dict),
      mergedPolicy raw n = some d →
      (d = [] → RetryPolicy.get_for ⟨raw⟩ n = some []) ∧
      (d ≠ [] → ∀ (i : Int) (bf : Option Rat),
        pyInt (dictGetD d "num_retries" (Val.vint 0)) = some i →
        coerceOpt pyFloat (dictGet? d "backoff_factor") = some bf →
        ∃ r : Dict, RetryPolicy.get_for ⟨raw⟩ n = some r ∧
          dictGet? r "num_retries" = some (Val.vint i) ∧
          dictGet? r "backoff_factor" = some (floatFieldVal bf) ∧
          dictGet? r "backoff_duration"
            = some (durFieldVal (dictGet? d "backoff_duration"))) := by
  intro raw n d hd
  constructor
  · intro hdnil
    subst hdnil
    simp [RetryPolicy.get_for, hd, normalizeRetry_nil]
  · intro hdne i bf hi hbf
    obtain ⟨r, hr, hf1, hf2, hf3⟩ := normalizeRetry_spec d hdne i bf hi hbf
    exact ⟨r, by simp [RetryPolicy.get_for, hd, hr], hf1, hf2, hf3⟩

/-- Closed-instance witness for C3: the spec's example retry block
resolves for `node1` with `num_retries = 4`, `backoff_factor = 2.0`,
`backoff_duration = "60s"`; and the empty block resolves to the empty
mapping without raising. -/
theorem C3_retry_normalization_witness :
    (∃ r : Dict, RetryPolicy.get_for ⟨retryBlockExample⟩ "node1" = some r ∧
       dictGet? r "num_retries" = some (Val.vint 4) ∧
       dictGet? r "backoff_factor" = some (floatFieldVal (some 2)) ∧
       dictGet? r "backoff_duration" = some (durFieldVal (some (Val.vstr "60s")))) ∧
    RetryPolicy.get_for ⟨[]⟩ "node1" = some [] :=
  ⟨(C3_retry_normalization retryBlockExample "node1" _ rfl).2
     (List.cons_ne_nil _ _) 4 (some 2) rfl rfl,
   (C3_retry_normalization [] "node1" [] rfl).1 rfl⟩

theorem getOrFail_none (raw : Dict) (pfx prop : String)
    (h : dictGet? raw prop = none) :
    getOrFail raw pfx prop = .error (.missingConfig (missingMsg (pfx ++ prop))) := by
  simp [getOrFail, h]

theorem getOrFail_some (raw : Dict) (pfx prop : String) (v : Val)
    (h : dictGet? raw prop = some v) :
    getOrFail raw pfx prop = .ok v := by
  simp [getOrFail, h]

/-- C4: accessing a required configuration field (`image`,
`experiment_name`, `run_name` under `run_config`; `host`, `run_config`
at the top level) that is absent raises the missing-configuration
failure whose message carries the fully-qualified dotted key name; when
the field is present its value is returned unchanged. -/
theorem C4_required_fields :
    ∀ raw : Dict,
      ((dictGet? raw "image" = none →
          RunConfig.image ⟨raw⟩
            = .error (.missingConfig (missingMsg "run_config.image"))) ∧
       (∀ v, dictGet? raw "image" = some v → RunConfig.image ⟨raw⟩ = .ok v)) ∧
      ((dictGet? raw "experiment_name" = none →
          RunConfig.experiment_name ⟨raw⟩
            = .error (.missingConfig (missingMsg "run_config.experiment_name"))) ∧
       (∀ v, dictGet? raw "experiment_name" = some v →
          RunConfig.experiment_name ⟨raw⟩ = .ok v)) ∧
      ((dictGet? raw "run_name" = none →
          RunConfig.run_name ⟨raw⟩
            = .error (.missingConfig (missingMsg "run_config.run_name"))) ∧
       (∀ v, dictGet? raw "run_name" = some v →
          RunConfig.run_name ⟨raw⟩ = .ok v)) ∧
      ((dictGet? raw "host" = none →
          PluginConfig.host ⟨raw⟩
            = .error (.missingConfig (missingMsg "host"))) ∧
       (∀ v, dictGet? raw "host" = some v → PluginConfig.host ⟨raw⟩ = .ok v)) ∧
      ((dictGet? raw "run_config" = none →
          PluginConfig.run_config ⟨raw⟩
            = .error (.missingConfig (missingMsg "run_config"))) ∧
       (∀ v, dictGet? raw "run_config" = some v →
          PluginConfig.run_config ⟨raw⟩ = .ok v)) := by
  intro raw
  refine ⟨⟨?_, ?_⟩, ⟨?_, ?_⟩, ⟨?_, ?_⟩, ⟨?_, ?_⟩, ⟨?_, ?_⟩⟩
  · exact fun h => getOrFail_none raw "run_config." "image" h
  · exact fun v h => getOrFail_some raw "run_config." "image" v h
  · exact fun h => getOrFail_none raw "run_config." "experiment_name" h
  · exact fun v h => getOrFail_some raw "run_config." "experiment_name" v h
  · exact fun h => getOrFail_none raw "run_config." "run_name" h
  · exact fun v h => getOrFail_some raw "run_config." "run_name" v h
  · exact fun h => getOrFail_none raw "" "host" h
  · exact fun v h => getOrFail_some raw "" "host" v h
  · exact fun h => getOrFail_none raw "" "run_config" h
  · exact fun v h => getOrFail_some raw "" "run_config" v h

/-- Closed-instance witness for C4: missing `image` and `host` raise
with the dotted key name in the message; present values come back
unchanged. -/
theorem C4_required_fields_witness :
    (RunConfig.image ⟨[]⟩
       = .error (.missingConfig (missingMsg "run_config.image"))) ∧
    (RunConfig.image ⟨[("image", Val.vstr "img:tag")]⟩ = .ok (Val.vstr "img:tag")) ∧
    (PluginConfig.host ⟨[]⟩ = .error (.missingConfig (missingMsg "host"))) ∧
    (PluginConfig.run_config ⟨[("run_config", Val.vdict [])]⟩ = .ok (Val.vdict [])) :=
  ⟨(C4_required_fields []).1.1 rfl,
   (C4_required_fields [("image", Val.vstr "img:tag")]).1.2 _ rfl,
   (C4_required_fields []).2.2.2.1.1 rfl,
   (C4_required_fields [("run_config", Val.vdict [])]).2.2.2.2.2 _ rfl⟩

/-- C5: `node_merge_strategy` returns the configured string when it is
`"none"` or `"full"`, returns `"none"` when the key is absent, and
raises a `ValueError` naming the offending value for any other
configured string. -/
theorem C5_node_merge_strategy :
    ∀ raw : Dict,
      (dictGet? raw "node_merge_strategy" = none →
         RunConfig.node_merge_strategy ⟨raw⟩ = .ok "none") ∧
      (∀ s : String, dictGet? raw "node_merge_strategy" = some (Val.vstr s) →
         ((s = "none" ∨ s = "full") →
            RunConfig.node_merge_strategy ⟨raw⟩ = .ok s) ∧
         (s ≠ "none" → s ≠ "full" →
            RunConfig.node_merge_strategy ⟨raw⟩
              = .error (.valueError
                  ("Invalid run_config.node_merge_strategy: " ++ s)))) := by
  intro raw
  constructor
  · intro h
    simp [RunConfig.node_merge_strategy, validateMergeStrategy,
      dictGetD_of_none _ _ _ h, pyStr]
  · intro s h
    have hst : pyStr (dictGetD raw "node_merge_strategy" (Val.vstr "none")) = s := by
      rw [dictGetD_of_some _ _ _ _ h]
      rfl
    constructor
    · intro hsv
      simp [RunConfig.node_merge_strategy, validateMergeStrategy, hst, hsv]
    · intro hs1 hs2
      have hcond : ¬(s = "none" ∨ s = "full") := not_or.mpr ⟨hs1, hs2⟩
      simp only [RunConfig.node_merge_strategy, validateMergeStrategy, hst,
        hcond, if_false]

/-- Closed-instance witness for C5: absent key yields `"none"`,
`"full"` is accepted, `"unknown"` raises naming the value. -/
theorem C5_node_merge_strategy_witness :
    (RunConfig.node_merge_strategy ⟨[]⟩ = .ok "none") ∧
    (RunConfig.node_merge_strategy ⟨[("node_merge_strategy", Val.vstr "full")]⟩
       = .ok "full") ∧
    (RunConfig.node_merge_strategy ⟨[("node_merge_strategy", Val.vstr "unknown")]⟩
       = .error (.valueError
           ("Invalid run_config.node_merge_strategy: " ++ "unknown"))) :=
  ⟨(C5_node_merge_strategy []).1 rfl,
   ((C5_node_merge_strategy
       [("node_merge_strategy", Val.vstr "full")]).2 "full" rfl).1 (Or.inr rfl),
   ((C5_node_merge_strategy
       [("node_merge_strategy", Val.vstr "unknown")]).2 "unknown" rfl).2
     (by decide) (by decide)⟩

/-- C6: generator selection in the client constructor maps strategy
`"none"` to the per-node generator and `"full"` to the merged one-pod
generator, and the defensive unknown-strategy `Exception` branch is
unreachable for every configuration whose `node_merge_strategy` read
succeeded — the enum validation guarantees the value is `"none"` or
`"full"`. -/
theorem C6_generator_selection :
    ∀ c : RunConfig,
      (c.node_merge_strategy = .ok "none" → selectGenerator c = .ok .podPerNode) ∧
      (c.node_merge_strategy = .ok "full" → selectGenerator c = .ok .onePod) ∧
      (∀ s, c.node_merge_strategy = .ok s → s = "none" ∨ s = "full") ∧
      (∀ m, selectGenerator c ≠ .error (.exception m)) := by
  intro c
  have h3 : ∀ s, c.node_merge_strategy = .ok s → s = "none" ∨ s = "full" := by
    intro s h
    unfold RunConfig.node_merge_strategy validateMergeStrategy at h
    split at h
    · next hcond =>
      injection h with h2
      subst h2
      exact hcond
    · exact absurd h (by simp)
  refine ⟨?_, ?_, h3, ?_⟩
  · intro h
    simp [selectGenerator, h]
  · intro h
    simp [selectGenerator, h]
  · intro m
    cases hs : c.node_merge_strategy with
    | error e =>
      have he : ∃ msg, e = .valueError msg := by
        unfold RunConfig.node_merge_strategy validateMergeStrategy at hs
        split at hs
        · exact absurd hs (by simp)
        · injection hs with h2
          exact ⟨_, h2.symm⟩
      obtain ⟨msg, rfl⟩ := he
      simp [selectGenerator, hs]
    | ok s =>
      rcases h3 s hs with rfl | rfl <;> simp [selectGenerator, hs]

/-- Closed-instance witness for C6: the default config selects the
per-node generator, a `"full"` config selects the one-pod generator,
the validated value is in the enum, and the defensive branch is not
taken. -/
theorem C6_generator_selection_witness :
    (selectGenerator ⟨[]⟩ = .ok .podPerNode) ∧
    (selectGenerator ⟨[("node_merge_strategy", Val.vstr "full")]⟩ = .ok .onePod) ∧
    ("none" = "none" ∨ "none" = "full") ∧
    (selectGenerator ⟨[]⟩ ≠ .error (.exception "whatever")) :=
  ⟨(C6_generator_selection ⟨[]⟩).1 rfl,
   (C6_generator_selection ⟨[("node_merge_strategy", Val.vstr "full")]⟩).2.1 rfl,
   (C6_generator_selection ⟨[]⟩).2.2.1 "none" rfl,
   (C6_generator_selection ⟨[]⟩).2.2.2 "whatever"⟩

/-- C7: the experiment read-through-create pattern — a successful
lookup returns the existing experiment's id and creates nothing; a
lookup failing with a `ValueError` whose message starts with the
recognized prefix `"No experiment is found"` creates the experiment and
returns the new id; any other lookup failure (a `ValueError` with a
different message, or an exception of another class) is re-raised
unchanged, never swallowed. -/
theorem C7_experiment_read_through_create :
    ∀ (lookup : Except PyError Experiment) (created : Experiment),
      (∀ e, lookup = .ok e →
         ensure_experiment_exists lookup created = .ok (e.id, false)) ∧
      (∀ m, lookup = .error (.valueError m) →
         (pyStartsWith m "No experiment is found" = true →
            ensure_experiment_exists lookup created = .ok (created.id, true)) ∧
         (pyStartsWith m "No experiment is found" = false →
            ensure_experiment_exists lookup created = .error (.valueError m))) ∧
      (∀ m, lookup = .error (.missingConfig m) →
         ensure_experiment_exists lookup created = .error (.missingConfig m)) ∧
      (∀ m, lookup = .error (.exception m) →
         ensure_experiment_exists lookup created = .error (.exception m)) := by
  intro lookup created
  refine ⟨?_, ?_, ?_, ?_⟩
  · intro e h
    simp [ensure_experiment_exists, h]
  · intro m h
    constructor
    · intro hp
      simp [ensure_experiment_exists, h, hp]
    · intro hp
      simp [ensure_experiment_exists, h, hp]
  · intro m h
    simp [ensure_experiment_exists, h]
  · intro m h
    simp [ensure_experiment_exists, h]

/-- Closed-instance witness for C7: an existing experiment is reused
without creating; the recognized not-found message triggers creation;
an unrecognized `ValueError` and a non-`ValueError` failure are
re-raised unchanged. -/
theorem C7_experiment_read_through_create_witness :
    (ensure_experiment_exists (.ok ⟨"exp-1"⟩) ⟨"exp-2"⟩ = .ok ("exp-1", false)) ∧
    (ensure_experiment_exists
       (.error (.valueError "No experiment is found with name demo"))
       ⟨"exp-2"⟩ = .ok ("exp-2", true)) ∧
    (ensure_experiment_exists (.error (.valueError "connection refused"))
       ⟨"exp-2"⟩ = .error (.valueError "connection refused")) ∧
    (ensure_experiment_exists (.error (.exception "boom")) ⟨"exp-2"⟩
       = .error (.exception "boom")) :=
  ⟨(C7_experiment_read_through_create (.ok ⟨"exp-1"⟩) ⟨"exp-2"⟩).1 ⟨"exp-1"⟩ rfl,
   ((C7_experiment_read_through_create _ ⟨"exp-2"⟩).2.1
      "No experiment is found with name demo" rfl).1 rfl,
   ((C7_experiment_read_through_create _ ⟨"exp-2"⟩).2.1
      "connection refused" rfl).2 rfl,
   (C7_experiment_read_through_create _ ⟨"exp-2"⟩).2.2.2 "boom" rfl⟩

/-- C8 counterexample: the claim's fixed retry-trigger condition of
"on failure" — the platform's `OnFailure` retry-policy constant — is
not what the code produces: on the spec's own example block
`{"num_retries": 4, "backoff_duration": "60s", "backoff_factor": 2}`
the produced unit carries the trigger constant `"Always"` (as the
in-repo test asserts), not `"OnFailure"`. -/
theorem C8_trigger_counterexample :
    attachRetrySpec ⟨retryBlockExample⟩ "node1"
      ≠ some { num_retries := 4, retry_trigger := some "OnFailure",
               backoff_factor := some 2, backoff_duration := some "60s" } := by
  intro h
  rw [show attachRetrySpec ⟨retryBlockExample⟩ "node1"
      = some { num_retries := 4, retry_trigger := some "Always",
               backoff_factor := some 2, backoff_duration := some "60s" } from rfl] at h
  simp at h

/-- C8 (amended): for every node whose retry policy is set, the
produced executable unit carries exactly the resolved `num_retries`,
`backoff_duration` and `backoff_factor` values together with the fixed
retry-trigger constant `"Always"` applied uniformly to all units (the
trigger is not configurable per node). -/
theorem C8_retry_attachment_amended :
    ∀ (rp : RetryPolicy) (n : String) (v : Dict) (k : Int),
      rp.is_set_for n = some true →
      rp.get_for n = some v →
      dictGet? v "num_retries" = some (Val.vint k) →
      attachRetrySpec rp n = some
        { num_retries := k
        , retry_trigger := some "Always"
        , backoff_factor := floatField (dictGet? v "backoff_factor")
        , backoff_duration := strField (dictGet? v "backoff_duration") } := by
  intro rp n v k hset hget hk
  simp [attachRetrySpec, hset, hget, hk]

/-- Closed-instance witness for C8 (amended): the example policy
`{"num_retries": 4, "backoff_duration": "60s", "backoff_factor": 2}`
yields a unit with exactly those values and the `"Always"` trigger. -/
theorem C8_retry_attachment_witness :
    attachRetrySpec ⟨retryBlockExample⟩ "node1" = some
      { num_retries := 4, retry_trigger := some "Always",
        backoff_factor := some 2, backoff_duration := some "60s" } :=
  C8_retry_attachment_amended ⟨retryBlockExample⟩ "node1"
    [("num_retries", Val.vint 4), ("backoff_duration", Val.vstr "60s"),
     ("backoff_factor", Val.vfloat 2)] 4 rfl rfl rfl

/-- C9 counterexample: with `scheduled_run_name` present but
`run_name` absent, the accessor does not return the configured
`scheduled_run_name` value — the fallback `_get_or_fail("run_name")`
is evaluated eagerly as the default argument, so the access raises the
missing-`run_name` failure instead. -/
theorem C9_scheduled_run_name_counterexample :
    RunConfig.scheduled_run_name ⟨[("scheduled_run_name", Val.vstr "x")]⟩
      ≠ .ok (Val.vstr "x") := by
  intro h
  rw [show RunConfig.scheduled_run_name ⟨[("scheduled_run_name", Val.vstr "x")]⟩
      = .error (.missingConfig (missingMsg "run_config.run_name")) from rfl] at h
  exact Except.noConfusion h

/-- C9 (amended): when `run_name` is present, `scheduled_run_name`
returns the configured `scheduled_run_name` value if that key exists
and the `run_name` value otherwise; but the `run_name` fallback is
evaluated eagerly, so whenever `run_name` is absent the access raises
the missing-`run_name` failure even if `scheduled_run_name` is
present. -/
theorem C9_scheduled_run_name_amended :
    ∀ raw : Dict,
      (∀ rv, dictGet? raw "run_name" = some rv →
         (dictGet? raw "scheduled_run_name" = none →
            RunConfig.scheduled_run_name ⟨raw⟩ = .ok rv) ∧
         (∀ sv, dictGet? raw "scheduled_run_name" = some sv →
            RunConfig.scheduled_run_name ⟨raw⟩ = .ok sv)) ∧
      (dictGet? raw "run_name" = none →
         RunConfig.scheduled_run_name ⟨raw⟩
           = .error (.missingConfig (missingMsg "run_config.run_name"))) := by
  intro raw
  constructor
  · intro rv hrv
    constructor
    · intro hs
      simp [RunConfig.scheduled_run_name, getOrFail_some raw "run_config." "run_name" rv hrv,
        dictGetD_of_none _ _ _ hs]
    · intro sv hs
      simp [RunConfig.scheduled_run_name, getOrFail_some raw "run_config." "run_name" rv hrv,
        dictGetD_of_some _ _ _ _ hs]
  · intro h
    simp [RunConfig.scheduled_run_name, getOrFail_none raw "run_config." "run_name" h]

/-- Closed-instance witness for C9 (amended): fallback to `run_name`,
override by `scheduled_run_name`, and the eager missing-`run_name`
failure. -/
theorem C9_scheduled_run_name_witness :
    (RunConfig.scheduled_run_name ⟨[("run_name", Val.vstr "r")]⟩
       = .ok (Val.vstr "r")) ∧
    (RunConfig.scheduled_run_name
       ⟨[("run_name", Val.vstr "r"), ("scheduled_run_name", Val.vstr "s")]⟩
       = .ok (Val.vstr "s")) ∧
    (RunConfig.scheduled_run_name ⟨[]⟩
       = .error (.missingConfig (missingMsg "run_config.run_name"))) :=
  ⟨((C9_scheduled_run_name_amended [("run_name", Val.vstr "r")]).1
      (Val.vstr "r") rfl).1 rfl,
   ((C9_scheduled_run_name_amended
       [("run_name", Val.vstr "r"), ("scheduled_run_name", Val.vstr "s")]).1
      (Val.vstr "r") rfl).2 (Val.vstr "s") rfl,
   (C9_scheduled_run_name_amended []).2 rfl⟩

/-- C10: when the `max_cache_staleness` key is absent the accessor
returns the literal four-character string `"None"` — the string
coercion of the missing-value default — not an absent value; in
general it always returns the string coercion of whatever value is
stored. -/
theorem C10_max_cache_staleness :
    ∀ raw : Dict,
      (dictGet? raw "max_cache_staleness" = none →
         RunConfig.max_cache_staleness ⟨raw⟩ = "None") ∧
      (∀ v, dictGet? raw "max_cache_staleness" = some v →
         RunConfig.max_cache_staleness ⟨raw⟩ = pyStr v) := by
  intro raw
  constructor
  · intro h
    rw [RunConfig.max_cache_staleness, dictGetD_of_none _ _ _ h]
    rfl
  · intro v h
    rw [RunConfig.max_cache_staleness, dictGetD_of_some _ _ _ _ h]

/-- Closed-instance witness for C10: the empty config reads back the
string `"None"`; a stored duration string reads back as itself. -/
theorem C10_max_cache_staleness_witness :
    (RunConfig.max_cache_staleness ⟨[]⟩ = "None") ∧
    (RunConfig.max_cache_staleness ⟨[("max_cache_staleness", Val.vstr "P0D")]⟩
       = pyStr (Val.vstr "P0D")) :=
  ⟨(C10_max_cache_staleness []).1 rfl,
   (C10_max_cache_staleness [("max_cache_staleness", Val.vstr "P0D")]).2
     (Val.vstr "P0D") rfl⟩

end KedroKubeflow
